import Mathlib

/-!
Shallow embedding of `fareharbor_webhook_receiver.py`.

The program is a single-file FastAPI webhook receiver: it extracts a booking
sub-object from the delivered JSON payload, classifies the booking into one of
four equipment categories from free text (`detect_boat_type`), and increments a
count cell in a report spreadsheet (`update_google_sheet`), appending a
diagnostic row to a backup worksheet (`log_to_backup_sheet`) on every completed
path.  JSON-like Python values are embedded as `PyVal`; Python exceptions that
the code can raise or catch are embedded as `PyExc` and threaded through
`Except` / an explicit `exc` field.  The two worksheets are embedded as grids of
cells (`Grid`), the way `gspread`'s `get_all_values` presents them.
-/

/-- Python-style JSON-like values as they arrive from `request.json()`:
`None`, booleans, integers, strings, lists and string-keyed dicts. -/
inductive PyVal where
  | pnone : PyVal
  | pbool : Bool → PyVal
  | pint : Int → PyVal
  | pstr : String → PyVal
  | plist : List PyVal → PyVal
  | pdict : List (String × PyVal) → PyVal

/-- The Python exception classes the source can raise or catch:
`TypeError`, `ValueError`, `KeyError`, `AttributeError`, `IndexError`. -/
inductive PyExc where
  | typeError
  | valueError
  | keyError
  | attributeError
  | indexError
deriving DecidableEq

/-- A worksheet as `gspread.get_all_values` returns it: a list of rows of
string cells. -/
abbrev Grid := List (List String)

/-- First binding of key `k` in a Python dict (insertion order, as JSON
objects decode). -/
def dictLookup (d : List (String × PyVal)) (k : String) : Option PyVal :=
  (d.find? (fun p => p.1 == k)).map (fun p => p.2)

/-- Python `v.get(k, dflt)`: only dicts have `.get`; on any other value the
attribute access raises `AttributeError`. -/
def pyGet (v : PyVal) (k : String) (dflt : PyVal) : Except PyExc PyVal :=
  match v with
  | .pdict d => .ok ((dictLookup d k).getD dflt)
  | _ => .error .attributeError

/-- Python `v[k]` with a string key: dict lookup raising `KeyError` on a
missing key; subscripting any non-dict with a string raises `TypeError`. -/
def pySub (v : PyVal) (k : String) : Except PyExc PyVal :=
  match v with
  | .pdict d =>
    match dictLookup d k with
    | some x => .ok x
    | none => .error .keyError
  | _ => .error .typeError

/-- Python `str.lower`, character by character (ASCII case folding, which
covers every keyword the program tests). -/
def strLower (s : String) : String := String.mk (s.toList.map Char.toLower)

/-- Python `str.strip()` with no argument: remove leading and trailing
whitespace. -/
def strStrip (s : String) : String :=
  String.mk (((s.toList.dropWhile Char.isWhitespace).reverse.dropWhile
    Char.isWhitespace).reverse)

/-- Python `v.lower()`: defined on strings, `AttributeError` otherwise. -/
def pyLower (v : PyVal) : Except PyExc String :=
  match v with
  | .pstr s => .ok (strLower s)
  | _ => .error .attributeError

/-- Python truthiness, as used by `(notes or "")`. -/
def PyVal.isTruthy : PyVal → Bool
  | .pnone => false
  | .pbool b => b
  | .pint n => n != 0
  | .pstr s => !s.toList.isEmpty
  | .plist l => !l.isEmpty
  | .pdict d => !d.isEmpty

/-- Python `for x in v`: lists yield elements, strings yield one-character
strings, dicts yield their keys; other values raise `TypeError`. -/
def pyIter (v : PyVal) : Except PyExc (List PyVal) :=
  match v with
  | .plist l => .ok l
  | .pstr s => .ok (s.toList.map (fun c => .pstr (String.mk [c])))
  | .pdict d => .ok (d.map (fun p => .pstr p.1))
  | _ => .error .typeError

/-- Python `isinstance(v, dict)`. -/
def PyVal.isDict : PyVal → Bool
  | .pdict _ => true
  | _ => false

/-- Whether a value is a Python `str`. -/
def PyVal.isStr : PyVal → Bool
  | .pstr _ => true
  | _ => false

/-- Python's `needle in hay` substring test on strings. -/
def pyIn (needle hay : String) : Bool :=
  (List.range (hay.toList.length + 1)).any
    (fun i => needle.toList.isPrefixOf (hay.toList.drop i))

/-- Hexadecimal digit, for JSON control-character escapes. -/
def hexDigit (n : Nat) : String :=
  ["0","1","2","3","4","5","6","7","8","9","a","b","c","d","e","f"].getD n "0"

/-- One character of `json.dumps` string escaping (ASCII core). -/
def jsonEscapeChar (c : Char) : String :=
  if c = '"' then "\\\""
  else if c = '\\' then "\\\\"
  else if c = '\n' then "\\n"
  else if c = '\t' then "\\t"
  else if c = '\r' then "\\r"
  else if c.toNat < 32 then "\\u00" ++ hexDigit (c.toNat / 16) ++ hexDigit (c.toNat % 16)
  else String.mk [c]

/-- A JSON string literal, as `json.dumps` quotes it. -/
def jsonQuote (s : String) : String :=
  "\"" ++ String.join (s.toList.map jsonEscapeChar) ++ "\""

mutual
/-- Model of `json.dumps` with default separators, as the source applies it to
the raw custom-field payload before appending it to the backup sheet. -/
def pyDumps : PyVal → String
  | .pnone => "null"
  | .pbool true => "true"
  | .pbool false => "false"
  | .pint n => toString n
  | .pstr s => jsonQuote s
  | .plist l => "[" ++ String.intercalate ", " (pyDumpsList l) ++ "]"
  | .pdict d => "\x7b" ++ String.intercalate ", " (pyDumpsObj d) ++ "\x7d"

/-- Serialize the elements of a JSON array. -/
def pyDumpsList : List PyVal → List String
  | [] => []
  | v :: vs => pyDumps v :: pyDumpsList vs

/-- Serialize the entries of a JSON object. -/
def pyDumpsObj : List (String × PyVal) → List String
  | [] => []
  | (k, v) :: kvs => (jsonQuote k ++ ": " ++ pyDumps v) :: pyDumpsObj kvs
end

/-- How a Python value lands in a spreadsheet cell once appended and read back
through `get_all_values` (strings verbatim, numbers and booleans rendered;
containers approximated by their JSON rendering). -/
def cellStr : PyVal → String
  | .pstr s => s
  | .pint n => toString n
  | .pbool true => "TRUE"
  | .pbool false => "FALSE"
  | .pnone => ""
  | v => pyDumps v

/-- Python `str(v)` as interpolated by the source's f-strings (container
`repr` approximated by JSON rendering; the program only ever interpolates
strings in practice). -/
def pyStrOf : PyVal → String
  | .pstr s => s
  | .pint n => toString n
  | .pbool true => "True"
  | .pbool false => "False"
  | .pnone => "None"
  | v => pyDumps v

/-! ## Classifier: `detect_boat_type` -/

/-- `SINGLE_KEYWORDS` from the source. -/
def SINGLE_KEYWORDS : List String := ["single"]

/-- `DOUBLE_KEYWORDS` from the source. -/
def DOUBLE_KEYWORDS : List String := ["double", "tandem"]

/-- `SUP_KEYWORDS` from the source. -/
def SUP_KEYWORDS : List String := ["sup", "paddleboard"]

/-- The contribution of one custom-field entry to the haystack: non-dict
entries are skipped by the `isinstance` guard; for a dict, `.get` supplies `""`
for a missing `value`/`display_value` and `.lower()` raises `AttributeError`
on a non-string. -/
def fieldChunk (f : PyVal) : Except PyExc String :=
  match f with
  | .pdict d =>
    match pyLower ((dictLookup d "value").getD (.pstr "")) with
    | .error e => .error e
    | .ok v =>
      match pyLower ((dictLookup d "display_value").getD (.pstr "")) with
      | .error e => .error e
      | .ok dv => .ok (" " ++ v ++ " " ++ dv)
  | _ => .ok ""

/-- The nested subscript chain
`customer["customer_type_rate"]["customer_type"]["singular"]`. -/
def custPath (c : PyVal) : Except PyExc PyVal :=
  match pySub c "customer_type_rate" with
  | .error e => .error e
  | .ok a =>
    match pySub a "customer_type" with
    | .error e => .error e
    | .ok t => pySub t "singular"

/-- The contribution of one customer entry: the source's `try` catches
`KeyError` and `TypeError` from the subscripts (skipping the entry), but an
`AttributeError` from `.lower()` on a non-string label escapes. -/
def customerChunk (c : PyVal) : Except PyExc String :=
  match custPath c with
  | .error .keyError => .ok ""
  | .error .typeError => .ok ""
  | .error e => .error e
  | .ok v => (pyLower v).map (fun s => " " ++ s)

/-- One of the source's accumulation loops: starting from `acc`, append each
element's chunk to `combined`, stopping at the first escaping exception. -/
def foldChunks (g : PyVal → Except PyExc String) : List PyVal → String → Except PyExc String
  | [], acc => .ok acc
  | x :: xs, acc =>
    match g x with
    | .error e => .error e
    | .ok s => foldChunks g xs (acc ++ s)

/-- The lowercase haystack `combined` built by `detect_boat_type`: notes
(with `(notes or "")`), then each custom field's value and display value, then
each customer's type label. -/
def buildCombined (notes custom_fields customers : PyVal) : Except PyExc String :=
  match pyLower (if notes.isTruthy then notes else .pstr "") with
  | .error e => .error e
  | .ok base =>
    match pyIter custom_fields with
    | .error e => .error e
    | .ok fl =>
      match foldChunks fieldChunk fl base with
      | .error e => .error e
      | .ok withFields =>
        match pyIter customers with
        | .error e => .error e
        | .ok cl => foldChunks customerChunk cl withFields

/-- The keyword cascade at the end of `detect_boat_type`: first matching
keyword set wins, `"Unlisted"` otherwise. -/
def classify (combined : String) : String :=
  if SINGLE_KEYWORDS.any (fun w => pyIn w combined) then "Single"
  else if DOUBLE_KEYWORDS.any (fun w => pyIn w combined) then "Double"
  else if SUP_KEYWORDS.any (fun w => pyIn w combined) then "SUP"
  else "Unlisted"

/-- `detect_boat_type(notes, custom_fields, customers)` from the source. -/
def detect_boat_type (notes custom_fields customers : PyVal) : Except PyExc String :=
  (buildCombined notes custom_fields customers).map classify

/-! ## Date parsing: `datetime.fromisoformat` and `strftime("%b %Y")` -/

/-- Read a nonempty all-digit character run as a decimal number. -/
def digitsToNat (l : List Char) : Option Nat :=
  if !l.isEmpty && l.all Char.isDigit then
    some (l.foldl (fun a c => a * 10 + (c.toNat - 48)) 0)
  else none

/-- Gregorian leap-year rule, as `datetime.date` validates days. -/
def isLeap (y : Nat) : Bool :=
  y % 4 == 0 && (y % 100 != 0 || y % 400 == 0)

/-- Days in a month, as `datetime.date` validates days. -/
def daysInMonth (y m : Nat) : Nat :=
  if m == 2 then (if isLeap y then 29 else 28)
  else if m == 4 || m == 6 || m == 9 || m == 11 then 30
  else 31

/-- A two-character decimal field bounded by `hi`. -/
def validTwo (l : List Char) (hi : Nat) : Bool :=
  l.length == 2 &&
    match digitsToNat l with
    | some n => decide (n ≤ hi)
    | none => false

/-- `HH:MM[:SS[.fff[fff]]]`, the time-of-day shapes `fromisoformat` accepts. -/
def validTimeCore (l : List Char) : Bool :=
  let okHM := l.getD 2 ' ' == ':' && validTwo (l.take 2) 23
    && validTwo ((l.drop 3).take 2) 59
  let okSec := l.getD 5 ' ' == ':' && validTwo ((l.drop 6).take 2) 59
  match l.length with
  | 5 => okHM
  | 8 => okHM && okSec
  | 12 => okHM && okSec && l.getD 8 ' ' == '.' && ((l.drop 9).all Char.isDigit)
  | 15 => okHM && okSec && l.getD 8 ' ' == '.' && ((l.drop 9).all Char.isDigit)
  | _ => false

/-- A `±HH:MM` UTC-offset suffix. -/
def validOffset (l : List Char) : Bool :=
  l.length == 6 && (l.getD 0 ' ' == '+' || l.getD 0 ' ' == '-')
    && validTwo ((l.drop 1).take 2) 23 && l.getD 3 ' ' == ':'
    && validTwo ((l.drop 4).take 2) 59

/-- The characters after the date separator: a time of day, optionally
followed by a UTC offset. -/
def validTimePart (l : List Char) : Bool :=
  [5, 8, 12, 15].any (fun n =>
    validTimeCore (l.take n)
      && (l.length == n || (l.length == n + 6 && validOffset (l.drop n))))

/-- Model of `datetime.fromisoformat` on strings: the `YYYY-MM-DD` date, then
optionally any one separator character, a time of day and a UTC offset — the
grammar `datetime.isoformat` emits.  Only the calendar date is returned, since
the program uses nothing else; no timezone conversion is applied (matching
`strftime` on the parsed value).  `none` models `ValueError`. -/
def pyFromisoformat (s : String) : Option (Nat × Nat × Nat) :=
  let l := s.toList
  if l.length < 10 then none
  else
    match digitsToNat (l.take 4), digitsToNat ((l.drop 5).take 2),
        digitsToNat ((l.drop 8).take 2) with
    | some y, some mo, some d =>
      if l.getD 4 ' ' == '-' && l.getD 7 ' ' == '-' && decide (1 ≤ y)
          && decide (1 ≤ mo) && decide (mo ≤ 12) && decide (1 ≤ d)
          && decide (d ≤ daysInMonth y mo) then
        match l.drop 10 with
        | [] => some (y, mo, d)
        | _sep :: t => if validTimePart t then some (y, mo, d) else none
      else none
    | _, _, _ => none

/-- The `%b` month abbreviations of `strftime`. -/
def monthAbbr (m : Nat) : String :=
  ["Jan", "Feb", "Mar", "Apr", "May", "Jun",
   "Jul", "Aug", "Sep", "Oct", "Nov", "Dec"].getD (m - 1) ""

/-- `date.strftime("%b %Y")`: abbreviated month, a space, the decimal year. -/
def strftimeBY (y m : Nat) : String :=
  monthAbbr m ++ " " ++ toString y

/-! ## Backup logging: `log_to_backup_sheet` -/

/-- The `log_data` dict assembled by `update_google_sheet` and consumed by
`log_to_backup_sheet`. -/
structure LogData where
  timestamp : String
  product_name : PyVal
  start_date : PyVal
  boat_type : String
  notes : PyVal
  custom_fields : PyVal
  logged : String
  error : String

/-- The fixed header row of the backup worksheet. -/
def backupHeaders : List String :=
  ["Timestamp (UTC)", "Product Name", "Start Date", "Detected Boat Type",
   "Notes", "Custom Field Values", "Logged?", "Failure Reason"]

/-- The row `log_to_backup_sheet` appends, in the order of `append_row`. -/
def logRow (d : LogData) : List String :=
  [d.timestamp, cellStr d.product_name, cellStr d.start_date, d.boat_type,
   cellStr d.notes, pyDumps d.custom_fields, d.logged, d.error]

/-- `log_to_backup_sheet(data)` acting on the backup grid (the worksheet is
assumed reachable; the unreachable case only prints): when the first row is not
the fixed header, `resize(rows=1)` truncates the sheet to its first row and
`insert_row(headers, index=1)` puts the header above it; then `append_row`
appends the record. -/
def log_to_backup_sheet (b : Grid) (d : LogData) : Grid :=
  (if b.head? = some backupHeaders then b else backupHeaders :: b.take 1)
    ++ [logRow d]

/-! ## Sheet update: `update_google_sheet` -/

/-- `TARGET_ITEMS` from the source. -/
def TARGET_ITEMS : List String :=
  ["Sunset Bat Tours",
   "Downtown to Barton Springs Tour",
   "Kayak and SUP Reservations"]

/-- Python `item_name in TARGET_ITEMS`: a value equals a string in the list
only if it is that string. -/
def isTracked (v : PyVal) : Bool :=
  match v with
  | .pstr s => TARGET_ITEMS.contains s
  | _ => false

/-- `booking_data.get("availability", {})`. -/
def availOf (bk : PyVal) : Except PyExc PyVal :=
  pyGet bk "availability" (.pdict [])

/-- `booking_data.get("availability", {}).get("start_at", "")` (line 99). -/
def startAtOf (bk : PyVal) : Except PyExc PyVal :=
  match availOf bk with
  | .error e => .error e
  | .ok a => pyGet a "start_at" (.pstr "")

/-- `booking_data.get("note", "")` (line 100). -/
def noteOf (bk : PyVal) : Except PyExc PyVal :=
  pyGet bk "note" (.pstr "")

/-- `booking_data.get("custom_field_values", [])` (line 101). -/
def cfsOf (bk : PyVal) : Except PyExc PyVal :=
  pyGet bk "custom_field_values" (.plist [])

/-- `booking_data.get("customers", [])` (line 141). -/
def customersOf (bk : PyVal) : Except PyExc PyVal :=
  pyGet bk "customers" (.plist [])

/-- `booking_data.get("availability", {}).get("item", {}).get("name", "")`
(lines 104–105). -/
def itemNameOf (bk : PyVal) : Except PyExc PyVal :=
  match availOf bk with
  | .error e => .error e
  | .ok a =>
    match pyGet a "item" (.pdict []) with
    | .error e => .error e
    | .ok i => pyGet i "name" (.pstr "")

/-- Whether a report row matches: at least two cells (rows shorter than 2 are
skipped by the loop) and the stripped month and category cells equal the
derived labels. -/
def rowMatches (row : List String) (month bt : String) : Bool :=
  decide (2 ≤ row.length) && strStrip (row.getD 0 "") == month
    && strStrip (row.getD 1 "") == bt

/-- The loop `for row_idx in range(1, len(data))`: index of the first row
after the header that matches. -/
def firstMatch (r : Grid) (month bt : String) : Option Nat :=
  (List.range r.length).find?
    (fun i => decide (1 ≤ i) && rowMatches (r.getD i []) month bt)

/-- `int(current) if current.isdigit() else 0` applied to the stripped count
cell (ASCII digits). -/
def countVal (s : String) : Nat :=
  if !s.toList.isEmpty && s.toList.all Char.isDigit then
    s.toList.foldl (fun a c => a * 10 + (c.toNat - 48)) 0
  else 0

/-- The result of one `update_google_sheet` call: the Python exception that
escaped it, if any, and the resulting report and backup grids. -/
structure UResult where
  exc : Option PyExc
  report : Grid
  backup : Grid
deriving DecidableEq

/-- The tail of `update_google_sheet` once the month label is fixed (line 137
onward): fetch the customers, classify, scan for the first matching row, and
either increment its count cell (reading `row[3]`, which raises `IndexError`
on a matching row narrower than 4 cells) or append a no-matching-row audit
record. -/
def updateWithMonth (now : String) (bk item_name start_date notes custom_fields : PyVal)
    (month : String) (r b : Grid) : UResult :=
  match customersOf bk with
  | .error e => ⟨some e, r, b⟩
  | .ok customers =>
    match detect_boat_type notes custom_fields customers with
    | .error e => ⟨some e, r, b⟩
    | .ok bt =>
      match firstMatch r month bt with
      | none =>
        ⟨none, r, log_to_backup_sheet b
          ⟨now, item_name, start_date, bt, notes, custom_fields, "No",
           "No matching row for " ++ bt ++ " in " ++ month⟩⟩
      | some i =>
        let row := r.getD i []
        if row.length ≤ 3 then ⟨some .indexError, r, b⟩
        else
          let cur := countVal (strStrip (row.getD 3 ""))
          ⟨none, r.set i (row.set 3 (toString (cur + 1))),
           log_to_backup_sheet b
             ⟨now, item_name, start_date, bt, notes, custom_fields, "Yes", ""⟩⟩

/-- `update_google_sheet(booking_data)` acting on the two grids (the report
worksheet is assumed reachable; `now` is `datetime.utcnow().isoformat()`).
Field extraction mirrors lines 97–105; an uncaught Python exception is
recorded in `exc` with both grids untouched.  The `except ValueError` around
`fromisoformat` does not cover the `TypeError` a non-string start date
raises. -/
def update_google_sheet (now : String) (bk : PyVal) (r b : Grid) : UResult :=
  match startAtOf bk with
  | .error e => ⟨some e, r, b⟩
  | .ok start_date =>
    match noteOf bk with
    | .error e => ⟨some e, r, b⟩
    | .ok notes =>
      match cfsOf bk with
      | .error e => ⟨some e, r, b⟩
      | .ok custom_fields =>
        match itemNameOf bk with
        | .error e => ⟨some e, r, b⟩
        | .ok item_name =>
          if !isTracked item_name then
            ⟨none, r, log_to_backup_sheet b
              ⟨now, item_name, start_date, "N/A", notes, custom_fields, "No",
               "Item not in TARGET_ITEMS: " ++ pyStrOf item_name⟩⟩
          else
            match start_date with
            | .pstr s =>
              match pyFromisoformat s with
              | none =>
                ⟨none, r, log_to_backup_sheet b
                  ⟨now, item_name, start_date, "N/A", notes, custom_fields,
                   "No", "Invalid start date"⟩⟩
              | some (y, m, _) =>
                updateWithMonth now bk item_name start_date notes custom_fields
                  (strftimeBY y m) r b
            | _ => ⟨some .typeError, r, b⟩

/-- The classifier as invoked on a booking: the same field extractions
`update_google_sheet` feeds to `detect_boat_type`. -/
def detectOf (bk : PyVal) : Except PyExc String :=
  match noteOf bk with
  | .error e => .error e
  | .ok nt =>
    match cfsOf bk with
    | .error e => .error e
    | .ok cf =>
      match customersOf bk with
      | .error e => .error e
      | .ok cust => detect_boat_type nt cf cust

/-! ## Endpoint: `receive_booking` -/

/-- The `POST /fareharbor/webhook` handler on a decoded JSON payload:
`payload.get("booking", {})`, the `booking.get("pk", "No ID")` of the print on
line 174, then `update_google_sheet`; any uncaught exception escapes the
handler, otherwise the acknowledgement dict is returned. -/
def receive_booking (now : String) (payload : PyVal) (r b : Grid) :
    Except PyExc (PyVal × Grid × Grid) :=
  match pyGet payload "booking" (.pdict []) with
  | .error e => .error e
  | .ok booking =>
    match pyGet booking "pk" (.pstr "No ID") with
    | .error e => .error e
    | .ok _ =>
      let u := update_google_sheet now booking r b
      match u.exc with
      | some e => .error e
      | none => .ok (.pdict [("status", .pstr "received")], u.report, u.backup)

/-! ## Predicates used by the claim statements -/

/-- The `notes` argument survives `(notes or "").lower()`: it is falsy (the
`or` replaces it by `""`) or a string. -/
def notesWF (v : PyVal) : Bool := !v.isTruthy || v.isStr

/-- A custom-field entry whose `value` and `display_value`, where present, are
strings (non-dict entries are skipped by the `isinstance` guard, so anything
else is fine). -/
def fieldWF (f : PyVal) : Bool :=
  match f with
  | .pdict d =>
    ((dictLookup d "value").getD (.pstr "")).isStr
      && ((dictLookup d "display_value").getD (.pstr "")).isStr
  | _ => true

/-- A customer entry whose type label, when the subscript chain resolves at
all, is a string (a failing chain is skipped by the `except` clause). -/
def custWF (c : PyVal) : Bool :=
  match custPath c with
  | .ok v => v.isStr
  | .error _ => true

/-- The element list of an iterable value, empty otherwise. -/
def pyIterL (v : PyVal) : List PyVal :=
  match pyIter v with
  | .ok l => l
  | .error _ => []

/-- Whether `for x in v` would iterate rather than raise `TypeError`. -/
def isIterable (v : PyVal) : Bool :=
  match pyIter v with
  | .ok _ => true
  | .error _ => false

/-- Classifier inputs on which `detect_boat_type` cannot raise: well-behaved
notes, iterable sequences, and well-typed entries. -/
def classifierInputsWF (notes custom_fields customers : PyVal) : Bool :=
  notesWF notes && isIterable custom_fields && (pyIterL custom_fields).all fieldWF
    && isIterable customers && (pyIterL customers).all custWF

/-- A booking whose nested path `availability.item.name` is absent: each step
is either missing or a dict, and the final key is missing.  (Flat payload
shapes, or ones carrying the product name under `product.name`, satisfy
this.) -/
def nameAbsent (bk : PyVal) : Bool :=
  match bk with
  | .pdict d =>
    match dictLookup d "availability" with
    | none => true
    | some (.pdict a) =>
      match dictLookup a "item" with
      | none => true
      | some (.pdict i) => (dictLookup i "name").isNone
      | some _ => false
    | some _ => false
  | _ => false

/-- A booking on which `update_google_sheet` raises no exception: the start
date extracts as a string, the item-name chain resolves, and the classifier
inputs are well-formed. -/
def BookingWF (bk : PyVal) : Prop :=
  (∃ s, startAtOf bk = .ok (.pstr s)) ∧ (∃ nm, itemNameOf bk = .ok nm) ∧
  (∃ nt cf cust, noteOf bk = .ok nt ∧ cfsOf bk = .ok cf ∧
    customersOf bk = .ok cust ∧ classifierInputsWF nt cf cust = true)

/-- A report grid whose data rows are either too narrow to match (fewer than
2 cells, skipped by the loop) or wide enough to carry the count cell `row[3]`
that a successful update reads. -/
def gridWF (r : Grid) : Bool :=
  (r.drop 1).all (fun row => decide (row.length < 2) || decide (4 ≤ row.length))

/-- What one delivery may do to the two grids: either an uncaught exception
leaves both untouched, or the report grid is unchanged and exactly one audit
record with `logged = "No"` is appended, or exactly one report row — the first
row after the header whose stripped month and category cells equal the derived
labels — has its count cell (blank or non-numeric read as 0) replaced by
count+1, with one `logged = "Yes"` record appended. -/
def C1Invariant (r b : Grid) (u : UResult) (bk : PyVal) : Prop :=
  (u.exc ≠ none ∧ u.report = r ∧ u.backup = b) ∨
  (u.exc = none ∧ u.report = r ∧
    ∃ rec, rec.logged = "No" ∧ u.backup = log_to_backup_sheet b rec) ∨
  (u.exc = none ∧
    ∃ s y m d bt i,
      startAtOf bk = .ok (.pstr s) ∧ pyFromisoformat s = some (y, m, d) ∧
      detectOf bk = .ok bt ∧ firstMatch r (strftimeBY y m) bt = some i ∧
      4 ≤ (r.getD i []).length ∧
      u.report = r.set i ((r.getD i []).set 3
        (toString (countVal (strStrip ((r.getD i []).getD 3 "")) + 1))) ∧
      ∃ rec, rec.logged = "Yes" ∧ rec.error = "" ∧
        u.backup = log_to_backup_sheet b rec)

/-! ## Helper lemmas -/

theorem pyLower_of_isStr : ∀ (v : PyVal), v.isStr = true → ∃ s, pyLower v = .ok s := by
  intro v h
  cases v <;> simp_all [PyVal.isStr, pyLower]

theorem fieldChunk_ok (f : PyVal) (h : fieldWF f = true) : ∃ s, fieldChunk f = .ok s := by
  cases f <;> simp [fieldChunk]
  case pdict d =>
    simp only [fieldWF, Bool.and_eq_true] at h
    obtain ⟨s1, h1⟩ := pyLower_of_isStr _ h.1
    obtain ⟨s2, h2⟩ := pyLower_of_isStr _ h.2
    exact ⟨" " ++ s1 ++ " " ++ s2, by simp [h1, h2]⟩

theorem pySub_err (v : PyVal) (k : String) (e : PyExc) (h : pySub v k = .error e) :
    e = .keyError ∨ e = .typeError := by
  cases v <;> simp [pySub] at h <;> try (exact Or.inr h.symm)
  case pdict d =>
    cases hl : dictLookup d k <;> rw [hl] at h <;> simp at h
    exact Or.inl h.symm

theorem custPath_err (c : PyVal) (e : PyExc) (h : custPath c = .error e) :
    e = .keyError ∨ e = .typeError := by
  unfold custPath at h
  split at h
  · next e1 heq =>
    cases h
    exact pySub_err _ _ _ heq
  · split at h
    · next e2 heq =>
      cases h
      exact pySub_err _ _ _ heq
    · exact pySub_err _ _ _ h

theorem customerChunk_ok (c : PyVal) (h : custWF c = true) : ∃ s, customerChunk c = .ok s := by
  unfold customerChunk
  cases hp : custPath c with
  | ok v =>
    unfold custWF at h
    rw [hp] at h
    obtain ⟨s, hs⟩ := pyLower_of_isStr v h
    refine ⟨" " ++ s, ?_⟩
    show Except.map (fun t => " " ++ t) (pyLower v) = Except.ok (" " ++ s)
    rw [hs]
    rfl
  | error e =>
    rcases custPath_err c e hp with h1 | h1 <;> subst h1 <;> exact ⟨"", rfl⟩

theorem foldChunks_ok (g : PyVal → Except PyExc String) :
    ∀ (l : List PyVal) (acc : String), (∀ x ∈ l, ∃ s, g x = .ok s) →
      ∃ s, foldChunks g l acc = .ok s := by
  intro l
  induction l with
  | nil => exact fun acc _ => ⟨acc, rfl⟩
  | cons x xs ih =>
    intro acc h
    obtain ⟨s, hs⟩ := h x (List.mem_cons_self _ _)
    obtain ⟨t, ht⟩ := ih (acc ++ s) (fun y hy => h y (List.mem_cons_of_mem _ hy))
    exact ⟨t, by simp [foldChunks, hs, ht]⟩

theorem pyIter_of_isIterable (v : PyVal) (h : isIterable v = true) :
    pyIter v = .ok (pyIterL v) := by
  cases v <;> simp_all [pyIter, isIterable, pyIterL]

theorem classify_cases (s : String) :
    classify s = "Single" ∨ classify s = "Double" ∨ classify s = "SUP"
      ∨ classify s = "Unlisted" := by
  unfold classify
  split
  · exact Or.inl rfl
  · split
    · exact Or.inr (Or.inl rfl)
    · split
      · exact Or.inr (Or.inr (Or.inl rfl))
      · exact Or.inr (Or.inr (Or.inr rfl))

theorem detect_boat_type_total (notes cf cust : PyVal)
    (h : classifierInputsWF notes cf cust = true) :
    ∃ lbl, detect_boat_type notes cf cust = .ok lbl ∧
      (lbl = "Single" ∨ lbl = "Double" ∨ lbl = "SUP" ∨ lbl = "Unlisted") := by
  simp only [classifierInputsWF, Bool.and_eq_true] at h
  obtain ⟨⟨⟨⟨hn, hicf⟩, hfw⟩, hicu⟩, hcw⟩ := h
  have hbase : ∃ s0, pyLower (if notes.isTruthy then notes else .pstr "") = .ok s0 := by
    by_cases ht : notes.isTruthy = true
    · simp only [ht, if_pos]
      refine pyLower_of_isStr _ ?_
      simp only [notesWF, ht, Bool.not_true, Bool.false_or] at hn
      exact hn
    · simp only [Bool.not_eq_true] at ht
      simp only [ht, Bool.false_eq_true, if_false]
      exact ⟨"", rfl⟩
  obtain ⟨s0, hs0⟩ := hbase
  obtain ⟨s1, hs1⟩ := foldChunks_ok fieldChunk (pyIterL cf) s0
    (fun x hx => fieldChunk_ok x (List.all_eq_true.mp hfw x hx))
  obtain ⟨s2, hs2⟩ := foldChunks_ok customerChunk (pyIterL cust) s1
    (fun x hx => customerChunk_ok x (List.all_eq_true.mp hcw x hx))
  refine ⟨classify s2, ?_, classify_cases s2⟩
  unfold detect_boat_type buildCombined
  rw [hs0]
  simp only [pyIter_of_isIterable _ hicf, pyIter_of_isIterable _ hicu, hs1, hs2]
  rfl

theorem update_untracked (now : String) (bk : PyVal) (r b : Grid)
    (sd nt cf nm : PyVal)
    (h1 : startAtOf bk = .ok sd) (h2 : noteOf bk = .ok nt)
    (h3 : cfsOf bk = .ok cf) (h4 : itemNameOf bk = .ok nm)
    (h5 : isTracked nm = false) :
    update_google_sheet now bk r b =
      ⟨none, r, log_to_backup_sheet b
        ⟨now, nm, sd, "N/A", nt, cf, "No",
         "Item not in TARGET_ITEMS: " ++ pyStrOf nm⟩⟩ := by
  unfold update_google_sheet
  rw [h1, h2, h3, h4]
  simp [h5]

theorem log_head (b : Grid) (d : LogData) :
    (log_to_backup_sheet b d).head? = some backupHeaders := by
  unfold log_to_backup_sheet
  split
  · next hh =>
    cases b with
    | nil => simp at hh
    | cons x xs => simp_all
  · simp

theorem log_append (b : Grid) (d : LogData) (h : b.head? = some backupHeaders) :
    log_to_backup_sheet b d = b ++ [logRow d] := by
  unfold log_to_backup_sheet
  rw [if_pos h]

/-! ## Claims -/

/-- C2: the classifier tests keyword sets in strict priority order — a
haystack containing both "single" and "sup" classifies as "Single", and the
notes "Tandem kayak, paddleboard option" classify as "Double" (double/tandem
checked before SUP). -/
theorem claim_C2 :
    (∀ notes cf cust s, buildCombined notes cf cust = .ok s →
       pyIn "single" s = true → pyIn "sup" s = true →
       detect_boat_type notes cf cust = .ok "Single") ∧
    detect_boat_type (.pstr "Tandem kayak, paddleboard option") (.plist []) (.plist [])
      = .ok "Double" := by
  constructor
  · intro notes cf cust s hb h1 _h2
    unfold detect_boat_type
    rw [hb]
    show Except.ok (classify s) = Except.ok "Single"
    unfold classify
    simp [SINGLE_KEYWORDS, h1]
  · rfl

/-- Witness for C2 at a concrete input containing both keywords. -/
theorem claim_C2_witness :
    detect_boat_type (.pstr "Single SUP mix") (.plist []) (.plist []) = .ok "Single" :=
  claim_C2.1 (.pstr "Single SUP mix") (.plist []) (.plist []) "single sup mix"
    rfl rfl rfl

/-- C5 counterexample: the classifier is not total on all malformed entries —
a custom-field dict whose "value" is the integer 5 reaches `.lower()` and
raises `AttributeError` (the `isinstance` guard only skips non-dict entries,
and the `except` clause around the customer loop does not cover
`AttributeError`). -/
theorem claim_C5_counterexample :
    detect_boat_type (.pstr "") (.plist [.pdict [("value", .pint 5)]]) (.plist [])
      = .error .attributeError := rfl

/-- C5 (amended): the classifier returns exactly one of the four labels and
never raises on every input whose notes are falsy or a string, whose
custom-field and customer sequences are iterable, whose custom-field dict
entries carry strings in `value`/`display_value` where present, and whose
customer type labels are strings when the subscript chain resolves (entries
failing the chain, and non-dict custom-field entries, are skipped); empty
notes with no custom fields and no customers yield "Unlisted". -/
theorem claim_C5 :
    (∀ notes cf cust, classifierInputsWF notes cf cust = true →
       ∃ lbl, detect_boat_type notes cf cust = .ok lbl ∧
         (lbl = "Single" ∨ lbl = "Double" ∨ lbl = "SUP" ∨ lbl = "Unlisted")) ∧
    detect_boat_type (.pstr "") (.plist []) (.plist []) = .ok "Unlisted" :=
  ⟨fun notes cf cust h => detect_boat_type_total notes cf cust h, rfl⟩

/-- Witness for C5 at a concrete well-formed input. -/
theorem claim_C5_witness :
    classifierInputsWF (.pstr "kayak trip") (.plist [.pdict [("value", .pstr "Double")]])
        (.plist []) = true ∧
    ∃ lbl, detect_boat_type (.pstr "kayak trip")
        (.plist [.pdict [("value", .pstr "Double")]]) (.plist []) = .ok lbl ∧
      (lbl = "Single" ∨ lbl = "Double" ∨ lbl = "SUP" ∨ lbl = "Unlisted") :=
  ⟨rfl, claim_C5.1 (.pstr "kayak trip") (.plist [.pdict [("value", .pstr "Double")]])
    (.plist []) rfl⟩

/-- C6: the item filter is exact, case-sensitive string equality against
`TARGET_ITEMS` — lowercase "sunset bat tours" is not in the allow-list, and
every delivery whose extracted product name is untracked is rejected before
any row lookup: the report grid is returned unchanged and one audit record
with `logged = "No"` and the item-not-tracked reason is appended. -/
theorem claim_C6 :
    ("sunset bat tours" ∉ TARGET_ITEMS) ∧
    ∀ now bk r b sd nt cf nm,
      startAtOf bk = .ok sd → noteOf bk = .ok nt → cfsOf bk = .ok cf →
      itemNameOf bk = .ok nm → isTracked nm = false →
      update_google_sheet now bk r b =
        ⟨none, r, log_to_backup_sheet b
          ⟨now, nm, sd, "N/A", nt, cf, "No",
           "Item not in TARGET_ITEMS: " ++ pyStrOf nm⟩⟩ :=
  ⟨by decide, fun now bk r b sd nt cf nm h1 h2 h3 h4 h5 =>
    update_untracked now bk r b sd nt cf nm h1 h2 h3 h4 h5⟩

/-- Witness for C6: the lowercase product name is rejected. -/
theorem claim_C6_witness :
    isTracked (.pstr "sunset bat tours") = false ∧
    update_google_sheet "T"
        (.pdict [("availability",
          .pdict [("item", .pdict [("name", .pstr "sunset bat tours")])])]) [] [] =
      ⟨none, [], log_to_backup_sheet []
        ⟨"T", .pstr "sunset bat tours", .pstr "", "N/A", .pstr "", .plist [], "No",
         "Item not in TARGET_ITEMS: " ++ pyStrOf (.pstr "sunset bat tours")⟩⟩ :=
  ⟨rfl, claim_C6.2 "T" _ [] [] _ _ _ _ rfl rfl rfl rfl rfl⟩

/-- C8: the audit log is append-only — after any `log_to_backup_sheet` call
the header invariant holds, and any further call is a pure append, preserving
every previously appended record unchanged. -/
theorem claim_C8 : ∀ (b : Grid) (d d' : LogData),
    (log_to_backup_sheet b d).head? = some backupHeaders ∧
    log_to_backup_sheet (log_to_backup_sheet b d) d' =
      log_to_backup_sheet b d ++ [logRow d'] :=
  fun b d d' => ⟨log_head b d, log_append (log_to_backup_sheet b d) d' (log_head b d)⟩

/-- C7: for a tracked item, either the start-date string parses (model of
ISO-8601 `fromisoformat`) and the month label used from there on is the
parsed timestamp's own month and year rendered as `"%b %Y"`, or the delivery
is rejected with the invalid-start-date reason and exactly one audit record is
appended, the report grid unchanged. -/
theorem claim_C7 : ∀ now bk r b s nt cf nm,
    startAtOf bk = .ok (.pstr s) → noteOf bk = .ok nt → cfsOf bk = .ok cf →
    itemNameOf bk = .ok nm → isTracked nm = true →
    (∃ y m d, pyFromisoformat s = some (y, m, d) ∧
       update_google_sheet now bk r b =
         updateWithMonth now bk nm (.pstr s) nt cf (strftimeBY y m) r b ∧
       strftimeBY y m = monthAbbr m ++ " " ++ toString y)
    ∨ (pyFromisoformat s = none ∧
       update_google_sheet now bk r b =
         ⟨none, r, log_to_backup_sheet b
           ⟨now, nm, .pstr s, "N/A", nt, cf, "No", "Invalid start date"⟩⟩) := by
  intro now bk r b s nt cf nm h1 h2 h3 h4 h5
  cases hp : pyFromisoformat s with
  | none =>
    right
    refine ⟨rfl, ?_⟩
    unfold update_google_sheet
    rw [h1, h2, h3, h4]
    simp [h5, hp]
  | some ymd =>
    obtain ⟨y, m, d⟩ := ymd
    left
    refine ⟨y, m, d, rfl, ?_, rfl⟩
    unfold update_google_sheet
    rw [h1, h2, h3, h4]
    simp [h5, hp]

/-- Witness for C7 at a tracked booking with an unparsable start date. -/
theorem claim_C7_witness :
    (∃ y m d, pyFromisoformat "not-a-date" = some (y, m, d) ∧
       update_google_sheet "T"
           (.pdict [("availability",
             .pdict [("start_at", .pstr "not-a-date"),
                     ("item", .pdict [("name", .pstr "Sunset Bat Tours")])])]) [] [] =
         updateWithMonth "T"
           (.pdict [("availability",
             .pdict [("start_at", .pstr "not-a-date"),
                     ("item", .pdict [("name", .pstr "Sunset Bat Tours")])])])
           (.pstr "Sunset Bat Tours") (.pstr "not-a-date") (.pstr "") (.plist [])
           (strftimeBY y m) [] [] ∧
       strftimeBY y m = monthAbbr m ++ " " ++ toString y)
    ∨ (pyFromisoformat "not-a-date" = none ∧
       update_google_sheet "T"
           (.pdict [("availability",
             .pdict [("start_at", .pstr "not-a-date"),
                     ("item", .pdict [("name", .pstr "Sunset Bat Tours")])])]) [] [] =
         ⟨none, [], log_to_backup_sheet []
           ⟨"T", .pstr "Sunset Bat Tours", .pstr "not-a-date", "N/A", .pstr "",
            .plist [], "No", "Invalid start date"⟩⟩) :=
  claim_C7 "T" _ [] [] "not-a-date" _ _ _ rfl rfl rfl rfl rfl

/-- C4: for a tracked item with a valid date whose (month, category) pair
matches no report row, the report grid is unchanged, exactly one audit record
with `logged = "No"` and the no-matching-row reason is appended, and no
exception escapes. -/
theorem claim_C4 : ∀ now bk r b s nt cf nm y m d cust bt,
    startAtOf bk = .ok (.pstr s) → noteOf bk = .ok nt → cfsOf bk = .ok cf →
    itemNameOf bk = .ok nm → isTracked nm = true →
    pyFromisoformat s = some (y, m, d) →
    customersOf bk = .ok cust →
    detect_boat_type nt cf cust = .ok bt →
    firstMatch r (strftimeBY y m) bt = none →
    update_google_sheet now bk r b =
      ⟨none, r, log_to_backup_sheet b
        ⟨now, nm, .pstr s, bt, nt, cf, "No",
         "No matching row for " ++ bt ++ " in " ++ strftimeBY y m⟩⟩ := by
  intro now bk r b s nt cf nm y m d cust bt h1 h2 h3 h4 h5 hp h6 h7 h8
  unfold update_google_sheet updateWithMonth
  rw [h1, h2, h3, h4]
  simp [h5, hp, h6, h7, h8]

/-- Witness for C4: an October 2025 single-kayak booking against a grid whose
only data row is September. -/
theorem claim_C4_witness :
    update_google_sheet "T"
        (.pdict [("availability",
          .pdict [("start_at", .pstr "2025-10-04T14:00:00"),
                  ("item", .pdict [("name", .pstr "Kayak and SUP Reservations")])]),
          ("note", .pstr "single kayak")])
        [["Month", "Boat", "X", "Count"], ["Sep 2025", "Single", "x", "4"]] [] =
      ⟨none, [["Month", "Boat", "X", "Count"], ["Sep 2025", "Single", "x", "4"]],
       log_to_backup_sheet []
        ⟨"T", .pstr "Kayak and SUP Reservations", .pstr "2025-10-04T14:00:00",
         "Single", .pstr "single kayak", .plist [], "No",
         "No matching row for " ++ "Single" ++ " in " ++ strftimeBY 2025 10⟩⟩ :=
  claim_C4 "T" _ _ [] "2025-10-04T14:00:00" _ _ _ 2025 10 4 _ "Single"
    rfl rfl rfl rfl rfl rfl rfl rfl rfl

/-- C10: if the first matching report row has at least 2 but fewer than 4
cells, reading the count cell `row[3]` raises an uncaught `IndexError`: the
update neither increments a count nor appends an audit record. -/
theorem claim_C10 : ∀ now bk r b s nt cf nm y m d cust bt i,
    startAtOf bk = .ok (.pstr s) → noteOf bk = .ok nt → cfsOf bk = .ok cf →
    itemNameOf bk = .ok nm → isTracked nm = true →
    pyFromisoformat s = some (y, m, d) →
    customersOf bk = .ok cust →
    detect_boat_type nt cf cust = .ok bt →
    firstMatch r (strftimeBY y m) bt = some i →
    (r.getD i []).length ≤ 3 →
    update_google_sheet now bk r b = ⟨some .indexError, r, b⟩ := by
  intro now bk r b s nt cf nm y m d cust bt i h1 h2 h3 h4 h5 hp h6 h7 h8 h9
  unfold update_google_sheet updateWithMonth
  rw [h1, h2, h3, h4]
  simp only [List.getD_eq_getElem?_getD] at h9
  simp [h5, hp, h6, h7, h8, h9]

/-- Witness for C10: the matching row has only 3 cells, so the count read is
out of bounds and nothing is written or logged. -/
theorem claim_C10_witness :
    2 ≤ (([["h"], ["Oct 2025", "Single", "x"]] : Grid).getD 1 []).length ∧
    update_google_sheet "T"
        (.pdict [("availability",
          .pdict [("start_at", .pstr "2025-10-04T14:00:00"),
                  ("item", .pdict [("name", .pstr "Kayak and SUP Reservations")])]),
          ("note", .pstr "single kayak")])
        [["h"], ["Oct 2025", "Single", "x"]] [] =
      ⟨some .indexError, [["h"], ["Oct 2025", "Single", "x"]], []⟩ :=
  ⟨by decide,
   claim_C10 "T" _ _ [] "2025-10-04T14:00:00" _ _ _ 2025 10 4 _ "Single" 1
     rfl rfl rfl rfl rfl rfl rfl rfl rfl (by decide)⟩

theorem dictLookup_nil (k : String) : dictLookup [] k = none := rfl

/-- C9: for every booking whose nested `availability.item.name` path is
absent (each step missing or a dict — including flat payload shapes or ones
using `product.name`), the extracted product name is the empty string, which
is never tracked, so the delivery is rejected as untracked: one audit record
is appended and the report grid is unchanged. -/
theorem claim_C9 : ∀ now bk r b, nameAbsent bk = true →
    itemNameOf bk = .ok (.pstr "") ∧
    ∃ sd nt cf, startAtOf bk = .ok sd ∧ noteOf bk = .ok nt ∧ cfsOf bk = .ok cf ∧
      update_google_sheet now bk r b =
        ⟨none, r, log_to_backup_sheet b
          ⟨now, .pstr "", sd, "N/A", nt, cf, "No", "Item not in TARGET_ITEMS: "⟩⟩ := by
  intro now bk r b h
  have hext : itemNameOf bk = .ok (.pstr "") ∧ (∃ sd, startAtOf bk = .ok sd) ∧
      (∃ nt, noteOf bk = .ok nt) ∧ (∃ cf, cfsOf bk = .ok cf) := by
    cases bk <;> simp [nameAbsent] at h
    case pdict d =>
      refine ⟨?_, ?_, ⟨_, rfl⟩, ⟨_, rfl⟩⟩
      · cases ha : dictLookup d "availability" with
        | none => simp [itemNameOf, availOf, pyGet, ha, dictLookup_nil]
        | some av =>
          rw [ha] at h
          cases av <;> simp at h
          case pdict a =>
            cases hi : dictLookup a "item" with
            | none => simp [itemNameOf, availOf, pyGet, ha, hi, dictLookup_nil]
            | some it =>
              rw [hi] at h
              cases it <;> simp at h
              case pdict itd =>
                have hn : dictLookup itd "name" = none := by
                  simpa [Option.isNone_iff_eq_none] using h
                simp [itemNameOf, availOf, pyGet, ha, hi, hn]
      · cases ha : dictLookup d "availability" with
        | none =>
          exact ⟨.pstr "", by simp [startAtOf, availOf, pyGet, ha, dictLookup_nil]⟩
        | some av =>
          rw [ha] at h
          cases av <;> simp at h
          case pdict a =>
            exact ⟨(dictLookup a "start_at").getD (.pstr ""),
              by simp [startAtOf, availOf, pyGet, ha]⟩
  obtain ⟨hnm, ⟨sd, hsd⟩, ⟨nt, hnt⟩, ⟨cf, hcf⟩⟩ := hext
  refine ⟨hnm, sd, nt, cf, hsd, hnt, hcf, ?_⟩
  have hu := update_untracked now bk r b sd nt cf (.pstr "") hsd hnt hcf hnm rfl
  rw [hu]
  rfl

/-- Witness for C9: a flat payload carrying the product name under
`product.name` only. -/
theorem claim_C9_witness :
    nameAbsent (.pdict [("product", .pdict [("name", .pstr "Sunset Bat Tours")])]) = true ∧
    (itemNameOf (.pdict [("product", .pdict [("name", .pstr "Sunset Bat Tours")])])
        = .ok (.pstr "") ∧
     ∃ sd nt cf,
       startAtOf (.pdict [("product", .pdict [("name", .pstr "Sunset Bat Tours")])])
           = .ok sd ∧
       noteOf (.pdict [("product", .pdict [("name", .pstr "Sunset Bat Tours")])])
           = .ok nt ∧
       cfsOf (.pdict [("product", .pdict [("name", .pstr "Sunset Bat Tours")])])
           = .ok cf ∧
       update_google_sheet "T"
           (.pdict [("product", .pdict [("name", .pstr "Sunset Bat Tours")])]) [] [] =
         ⟨none, [], log_to_backup_sheet []
           ⟨"T", .pstr "", sd, "N/A", nt, cf, "No", "Item not in TARGET_ITEMS: "⟩⟩) :=
  ⟨rfl, claim_C9 "T" _ [] [] rfl⟩

/-- C1: every delivery satisfies the update invariant — at most one report
row's count is incremented, by exactly 1, at the first matching row after the
header (trimmed comparison, blank/non-numeric count read as 0), or the grids
are untouched apart from exactly one appended audit record describing why
(an uncaught exception leaves both grids untouched and increments nothing). -/
theorem claim_C1 (now : String) (bk : PyVal) (r b : Grid) :
    C1Invariant r b (update_google_sheet now bk r b) bk := by
  unfold C1Invariant
  cases h1 : startAtOf bk with
  | error e =>
    have hu : update_google_sheet now bk r b = ⟨some e, r, b⟩ := by
      unfold update_google_sheet; rw [h1]
    rw [hu]; left; exact ⟨by simp, rfl, rfl⟩
  | ok sd =>
  cases h2 : noteOf bk with
  | error e =>
    have hu : update_google_sheet now bk r b = ⟨some e, r, b⟩ := by
      unfold update_google_sheet; rw [h1, h2]
    rw [hu]; left; exact ⟨by simp, rfl, rfl⟩
  | ok nt =>
  cases h3 : cfsOf bk with
  | error e =>
    have hu : update_google_sheet now bk r b = ⟨some e, r, b⟩ := by
      unfold update_google_sheet; rw [h1, h2, h3]
    rw [hu]; left; exact ⟨by simp, rfl, rfl⟩
  | ok cf =>
  cases h4 : itemNameOf bk with
  | error e =>
    have hu : update_google_sheet now bk r b = ⟨some e, r, b⟩ := by
      unfold update_google_sheet; rw [h1, h2, h3, h4]
    rw [hu]; left; exact ⟨by simp, rfl, rfl⟩
  | ok nm =>
  by_cases h5 : isTracked nm = true
  case neg =>
    have h5' : isTracked nm = false := by simpa using h5
    have hu := update_untracked now bk r b sd nt cf nm h1 h2 h3 h4 h5'
    rw [hu]; right; left
    exact ⟨rfl, rfl,
      ⟨now, nm, sd, "N/A", nt, cf, "No", "Item not in TARGET_ITEMS: " ++ pyStrOf nm⟩,
      rfl, rfl⟩
  case pos =>
  cases sd with
  | pstr s =>
    cases hp : pyFromisoformat s with
    | none =>
      have hu : update_google_sheet now bk r b =
          ⟨none, r, log_to_backup_sheet b
            ⟨now, nm, .pstr s, "N/A", nt, cf, "No", "Invalid start date"⟩⟩ := by
        unfold update_google_sheet; rw [h1, h2, h3, h4]; simp [h5, hp]
      rw [hu]; right; left
      exact ⟨rfl, rfl,
        ⟨now, nm, .pstr s, "N/A", nt, cf, "No", "Invalid start date"⟩, rfl, rfl⟩
    | some ymd =>
    obtain ⟨y, m, d⟩ := ymd
    cases h6 : customersOf bk with
    | error e =>
      have hu : update_google_sheet now bk r b = ⟨some e, r, b⟩ := by
        unfold update_google_sheet updateWithMonth
        rw [h1, h2, h3, h4]; simp [h5, hp, h6]
      rw [hu]; left; exact ⟨by simp, rfl, rfl⟩
    | ok cust =>
    cases h7 : detect_boat_type nt cf cust with
    | error e =>
      have hu : update_google_sheet now bk r b = ⟨some e, r, b⟩ := by
        unfold update_google_sheet updateWithMonth
        rw [h1, h2, h3, h4]; simp [h5, hp, h6, h7]
      rw [hu]; left; exact ⟨by simp, rfl, rfl⟩
    | ok bt =>
    have hdet : detectOf bk = .ok bt := by
      unfold detectOf; rw [h2, h3, h6]; exact h7
    cases h8 : firstMatch r (strftimeBY y m) bt with
    | none =>
      have hu : update_google_sheet now bk r b =
          ⟨none, r, log_to_backup_sheet b
            ⟨now, nm, .pstr s, bt, nt, cf, "No",
             "No matching row for " ++ bt ++ " in " ++ strftimeBY y m⟩⟩ := by
        unfold update_google_sheet updateWithMonth
        rw [h1, h2, h3, h4]; simp [h5, hp, h6, h7, h8]
      rw [hu]; right; left
      exact ⟨rfl, rfl,
        ⟨now, nm, .pstr s, bt, nt, cf, "No",
         "No matching row for " ++ bt ++ " in " ++ strftimeBY y m⟩, rfl, rfl⟩
    | some i =>
    by_cases h9 : (r.getD i []).length ≤ 3
    case pos =>
      have hu : update_google_sheet now bk r b = ⟨some .indexError, r, b⟩ := by
        unfold update_google_sheet updateWithMonth
        rw [h1, h2, h3, h4]
        simp only [List.getD_eq_getElem?_getD] at h9
        simp [h5, hp, h6, h7, h8, h9]
      rw [hu]; left; exact ⟨by simp, rfl, rfl⟩
    case neg =>
      have hu : update_google_sheet now bk r b =
          ⟨none, r.set i ((r.getD i []).set 3
             (toString (countVal (strStrip ((r.getD i []).getD 3 "")) + 1))),
           log_to_backup_sheet b ⟨now, nm, .pstr s, bt, nt, cf, "Yes", ""⟩⟩ := by
        unfold update_google_sheet updateWithMonth
        rw [h1, h2, h3, h4]
        have h9' := h9
        simp only [List.getD_eq_getElem?_getD] at h9'
        simp [h5, hp, h6, h7, h8, h9']
      rw [hu]; right; right
      refine ⟨rfl, s, y, m, d, bt, i, rfl, hp, hdet, h8, by omega, rfl,
        ⟨now, nm, .pstr s, bt, nt, cf, "Yes", ""⟩, rfl, rfl, rfl⟩
  | pnone =>
    have hu : update_google_sheet now bk r b = ⟨some .typeError, r, b⟩ := by
      unfold update_google_sheet; rw [h1, h2, h3, h4]; simp [h5]
    rw [hu]; left; exact ⟨by simp, rfl, rfl⟩
  | pbool bb =>
    have hu : update_google_sheet now bk r b = ⟨some .typeError, r, b⟩ := by
      unfold update_google_sheet; rw [h1, h2, h3, h4]; simp [h5]
    rw [hu]; left; exact ⟨by simp, rfl, rfl⟩
  | pint n =>
    have hu : update_google_sheet now bk r b = ⟨some .typeError, r, b⟩ := by
      unfold update_google_sheet; rw [h1, h2, h3, h4]; simp [h5]
    rw [hu]; left; exact ⟨by simp, rfl, rfl⟩
  | plist l =>
    have hu : update_google_sheet now bk r b = ⟨some .typeError, r, b⟩ := by
      unfold update_google_sheet; rw [h1, h2, h3, h4]; simp [h5]
    rw [hu]; left; exact ⟨by simp, rfl, rfl⟩
  | pdict dd =>
    have hu : update_google_sheet now bk r b = ⟨some .typeError, r, b⟩ := by
      unfold update_google_sheet; rw [h1, h2, h3, h4]; simp [h5]
    rw [hu]; left; exact ⟨by simp, rfl, rfl⟩

theorem firstMatch_facts (r : Grid) (month bt : String) (i : Nat)
    (h : firstMatch r month bt = some i) :
    1 ≤ i ∧ i < r.length ∧ 2 ≤ (r.getD i []).length := by
  unfold firstMatch at h
  have hp := List.find?_some h
  have hm := List.mem_range.mp (List.mem_of_find?_eq_some h)
  simp only [Bool.and_eq_true, decide_eq_true_eq] at hp
  obtain ⟨hge, hrm⟩ := hp
  refine ⟨hge, hm, ?_⟩
  simp only [rowMatches, Bool.and_eq_true, decide_eq_true_eq] at hrm
  exact hrm.1.1

theorem getD_mem_drop (r : Grid) (i : Nat) (h1 : 1 ≤ i) (hi : i < r.length) :
    r.getD i [] ∈ r.drop 1 := by
  cases r with
  | nil => simp at hi
  | cons x xs =>
    have hx : i - 1 < xs.length := by
      simp only [List.length_cons] at hi
      omega
    have hstep : (x :: xs).getD i [] = xs.getD (i - 1) [] := by
      cases i with
      | zero => omega
      | succ j => simp [List.getD_cons_succ]
    rw [hstep, List.getD_eq_getElem?_getD, List.getElem?_eq_getElem hx]
    simp

theorem gridWF_len (r : Grid) (i : Nat) (hg : gridWF r = true)
    (h1 : 1 ≤ i) (hi : i < r.length) (h2 : 2 ≤ (r.getD i []).length) :
    4 ≤ (r.getD i []).length := by
  have hmem := getD_mem_drop r i h1 hi
  have hrow := List.all_eq_true.mp hg _ hmem
  simp only [Bool.or_eq_true, decide_eq_true_eq] at hrow
  rcases hrow with hlt | hge4
  · omega
  · exact hge4

theorem pyGet_ok (v : PyVal) (k : String) (dflt x : PyVal)
    (h : pyGet v k dflt = .ok x) : ∃ dd, v = .pdict dd := by
  cases v <;> simp [pyGet] at h
  exact ⟨_, rfl⟩

theorem update_exc_none (now : String) (bk : PyVal) (r b : Grid)
    (hwf : BookingWF bk) (hg : gridWF r = true) :
    (update_google_sheet now bk r b).exc = none := by
  obtain ⟨⟨s, h1⟩, ⟨nm, h4⟩, nt, cf, cust, h2, h3, h6, hcl⟩ := hwf
  by_cases h5 : isTracked nm = true
  case neg =>
    have h5' : isTracked nm = false := by simpa using h5
    rw [update_untracked now bk r b (.pstr s) nt cf nm h1 h2 h3 h4 h5']
  case pos =>
    obtain ⟨bt, h7, _⟩ := detect_boat_type_total nt cf cust hcl
    cases hp : pyFromisoformat s with
    | none =>
      unfold update_google_sheet
      rw [h1, h2, h3, h4]
      simp [h5, hp]
    | some ymd =>
      obtain ⟨y, m, d⟩ := ymd
      cases h8 : firstMatch r (strftimeBY y m) bt with
      | none =>
        unfold update_google_sheet updateWithMonth
        rw [h1, h2, h3, h4]
        simp [h5, hp, h6, h7, h8]
      | some i =>
        obtain ⟨hge, hlt, hlen2⟩ := firstMatch_facts r (strftimeBY y m) bt i h8
        have hlen4 := gridWF_len r i hg hge hlt hlen2
        have h9 : ¬((r.getD i []).length ≤ 3) := by omega
        unfold update_google_sheet updateWithMonth
        rw [h1, h2, h3, h4]
        simp only [List.getD_eq_getElem?_getD] at h9
        simp [h5, hp, h6, h7, h8, h9]

/-- C3 counterexample: a payload whose booking carries `availability: null`
makes `booking.get("availability", {}).get("start_at", "")` raise
`AttributeError`, which nothing in the handler catches — the request does not
receive the `received` acknowledgement. -/
theorem claim_C3_counterexample :
    receive_booking "2025-10-12T00:00:00"
        (.pdict [("booking", .pdict [("availability", .pnone)])]) [] []
      = .error .attributeError := rfl

/-- C3 (amended): for every request whose extracted booking is well-typed in
the fields the handler touches (start date a string or absent, the
availability/item steps dicts or absent, classifier inputs well-formed) and
whose report grid carries no matching row narrower than 4 cells, the endpoint
returns the acknowledgement `status: received` and no exception propagates —
in particular a malformed date *string* is caught and acknowledged. -/
theorem claim_C3 : ∀ now payload bk r b,
    pyGet payload "booking" (.pdict []) = .ok bk →
    BookingWF bk → gridWF r = true →
    ∃ r' b', receive_booking now payload r b =
      .ok (.pdict [("status", .pstr "received")], r', b') := by
  intro now payload bk r b hpg hwf hg
  have hdict : ∃ dd, bk = .pdict dd := by
    obtain ⟨⟨s, h1⟩, _⟩ := hwf
    unfold startAtOf at h1
    cases hav : availOf bk with
    | error e => rw [hav] at h1; simp at h1
    | ok a => exact pyGet_ok bk "availability" _ a hav
  obtain ⟨dd, rfl⟩ := hdict
  have hexc := update_exc_none now (.pdict dd) r b hwf hg
  refine ⟨(update_google_sheet now (.pdict dd) r b).report,
    (update_google_sheet now (.pdict dd) r b).backup, ?_⟩
  unfold receive_booking
  rw [hpg]
  simp [pyGet, hexc]

/-- Witness for C3 at a tracked booking with an unparsable date string. -/
theorem claim_C3_witness :
    BookingWF (.pdict [("availability",
      .pdict [("start_at", .pstr "not a date"),
              ("item", .pdict [("name", .pstr "Sunset Bat Tours")])])]) ∧
    gridWF [] = true ∧
    ∃ r' b', receive_booking "T"
        (.pdict [("booking", .pdict [("availability",
          .pdict [("start_at", .pstr "not a date"),
                  ("item", .pdict [("name", .pstr "Sunset Bat Tours")])])])]) [] [] =
      .ok (.pdict [("status", .pstr "received")], r', b') := by
  have hwf : BookingWF (.pdict [("availability",
      .pdict [("start_at", .pstr "not a date"),
              ("item", .pdict [("name", .pstr "Sunset Bat Tours")])])]) :=
    ⟨⟨"not a date", rfl⟩, ⟨.pstr "Sunset Bat Tours", rfl⟩,
     .pstr "", .plist [], .plist [], rfl, rfl, rfl, rfl⟩
  exact ⟨hwf, rfl, claim_C3 "T" _ _ [] [] rfl hwf rfl⟩
